import Mathlib

/-!
Verification development for the css-complexity-analyzer core.

The TypeScript core (packages/cli/src/core) is shallowly embedded here:
JavaScript numbers are modelled as exact rationals (`ℚ`) or naturals where
the source only ever produces non-negative integers, `Math.round` as
`jsRound` (round half toward positive infinity), optional values as
`Option`, JS `Map` objects (whose iteration order is insertion order) as
association lists updated in place, `Array.prototype.sort` (stable since
ES2019) as a stable merge sort, and the clock read
(`new Date().toISOString()` in `generateReport`) as an explicit `now`
argument.  Selector ASTs produced by the external postcss-selector-parser
library are modelled by the closed node type `SelNode`; its `walk`
traversal visits every node, including the nodes of the argument
selectors of functional pseudo-classes such as `:not(...)`.
-/

/-- JavaScript `Math.round`: rounds half toward positive infinity. -/
def jsRound (q : ℚ) : ℤ := ⌊q + 1/2⌋

/-- Rounding to two decimals, `Math.round(x * 100) / 100` in the source. -/
def round2 (q : ℚ) : ℚ := (jsRound (q * 100) : ℚ) / 100

/-- Specificity triple (types.ts).  Components are JS numbers; they are
integral for parsed selectors but fractional for averaged specificities. -/
structure Specificity where
  ids : ℚ
  classes : ℚ
  elements : ℚ
deriving Repr, DecidableEq

/-- Parsed selector (types.ts). -/
structure ParsedSelector where
  raw : String
  depth : Nat
  specificity : Specificity
  hasId : Bool
  hasPseudoClass : Bool
  hasPseudoElement : Bool
  hasAttribute : Bool
deriving Repr, DecidableEq

/-- Parsed declaration (types.ts). -/
structure ParsedDeclaration where
  property : String
  value : String
  important : Bool
deriving Repr, DecidableEq

/-- Parsed rule (types.ts). -/
structure ParsedRule where
  selectors : List ParsedSelector
  declarations : List ParsedDeclaration
  file : String
  line : Option Nat := none
  column : Option Nat := none
  layer : Option String := none
deriving Repr, DecidableEq

/-- Result of parsing one CSS file (types.ts). -/
structure ParseResult where
  file : String
  rules : List ParsedRule
  errors : List String := []
  layers : List String := []
  usesLayers : Bool := false
deriving Repr, DecidableEq

/-- specificityToScore (parser.ts): ids * 100 + classes * 10 + elements. -/
def specificityToScore (specificity : Specificity) : ℚ :=
  specificity.ids * 100 + specificity.classes * 10 + specificity.elements

/-- compareSpecificity (parser.ts): positive if a > b, negative if a < b,
0 if equal; compares ids, then classes, then elements. -/
def compareSpecificity (a b : Specificity) : ℚ :=
  if a.ids ≠ b.ids then a.ids - b.ids
  else if a.classes ≠ b.classes then a.classes - b.classes
  else a.elements - b.elements

/-- Selector AST node as produced by postcss-selector-parser, reduced to the
closed variant set the core walks over.  The argument selectors of a
functional pseudo-class (`:not(.a .b)` and friends) appear as the `args`
of the `pseudo` node. -/
inductive SelNode where
  | id (value : String)
  | cls (value : String)
  | attr (value : String)
  | tag (value : String)
  | universal
  | combinator (value : String)
  | pseudo (value : String) (args : List SelNode)

mutual

/-- Number of combinator nodes the library `walk` visits from one node:
`walk` descends into the argument selectors of pseudo nodes. -/
def nodeCombinators : SelNode → Nat
  | .combinator _ => 1
  | .pseudo _ args => listCombinators args
  | _ => 0

/-- Number of combinator nodes the library `walk` visits in a node list. -/
def listCombinators : List SelNode → Nat
  | [] => 0
  | n :: t => nodeCombinators n + listCombinators t

end

/-- calculateSelectorDepth (parser.ts): starts at 1 and increments for every
node of type combinator that `selectors.walk` visits. -/
def calculateSelectorDepth (selector : List SelNode) : Nat :=
  1 + listCombinators selector

/-- Whether a node is a combinator token. -/
def isCombinator : SelNode → Bool
  | .combinator _ => true
  | _ => false

/-- Number of combinator tokens at the top level of a selector only,
ignoring those nested inside pseudo-class arguments.  This is the count
the specification describes. -/
def topLevelCombinators (selector : List SelNode) : Nat :=
  selector.countP isCombinator

mutual

/-- Flattening of the `walk` traversal from one node (pre-order). -/
def walkNode : SelNode → List SelNode
  | .pseudo v args => .pseudo v args :: walkList args
  | n => [n]

/-- Flattening of the `walk` traversal of a node list. -/
def walkList : List SelNode → List SelNode
  | [] => []
  | n :: t => walkNode n ++ walkList t

end

/-- LAYOUT_PROPERTIES (metrics.ts): the fixed set of layout-affecting
CSS properties, verbatim from the source. -/
def LAYOUT_PROPERTIES : List String :=
  ["width", "height", "min-width", "min-height", "max-width", "max-height",
   "top", "left", "right", "bottom",
   "margin", "margin-top", "margin-right", "margin-bottom", "margin-left",
   "padding", "padding-top", "padding-right", "padding-bottom", "padding-left",
   "display", "position", "float", "clear",
   "flex", "flex-basis", "flex-grow", "flex-shrink", "flex-direction", "flex-wrap",
   "justify-content", "align-items", "align-self", "align-content", "order",
   "grid", "grid-template", "grid-template-columns", "grid-template-rows",
   "grid-template-areas", "grid-column", "grid-row", "grid-area", "grid-gap",
   "gap", "row-gap", "column-gap",
   "border", "border-width", "border-top-width", "border-right-width",
   "border-bottom-width", "border-left-width", "box-sizing",
   "overflow", "overflow-x", "overflow-y",
   "white-space", "word-wrap", "word-break", "text-overflow", "table-layout",
   "vertical-align", "line-height", "font-size", "writing-mode",
   "columns", "column-count", "column-width", "column-span",
   "break-before", "break-after", "break-inside"]

/-- One entry of RISKY_COMBINATIONS (metrics.ts). -/
structure RiskyCombination where
  properties : List String
  riskMultiplier : ℚ
deriving Repr, DecidableEq

/-- RISKY_COMBINATIONS (metrics.ts), in definition order. -/
def RISKY_COMBINATIONS : List RiskyCombination :=
  [⟨["position", "top", "left"], 3/2⟩,
   ⟨["position", "top", "right"], 3/2⟩,
   ⟨["position", "bottom", "left"], 3/2⟩,
   ⟨["position", "bottom", "right"], 3/2⟩,
   ⟨["float", "width"], 13/10⟩,
   ⟨["display", "position"], 6/5⟩]

/-- calculateAverage (metrics.ts). -/
def calculateAverage (numbers : List ℚ) : ℚ :=
  if numbers.isEmpty then 0 else numbers.sum / (numbers.length : ℚ)

/-- calculateAverageSpecificity (metrics.ts): independent per-component mean,
each rounded to two decimals. -/
def calculateAverageSpecificity (specificities : List Specificity) : Specificity :=
  if specificities.isEmpty then ⟨0, 0, 0⟩
  else
    let n : ℚ := specificities.length
    { ids := round2 ((specificities.map (·.ids)).sum / n)
      classes := round2 ((specificities.map (·.classes)).sum / n)
      elements := round2 ((specificities.map (·.elements)).sum / n) }

/-- The reduce callback of findMaxSpecificity (metrics.ts): keep the current
element only when it compares strictly greater than the accumulator. -/
def findMaxStep (max current : Specificity) : Specificity :=
  if compareSpecificity current max > 0 then current else max

/-- findMaxSpecificity (metrics.ts): reduce over the list with the first
element as seed; the zero triple on empty input. -/
def findMaxSpecificity : List Specificity → Specificity
  | [] => ⟨0, 0, 0⟩
  | h :: t => t.foldl findMaxStep h

/-- countImportantInRule (metrics.ts). -/
def countImportantInRule (rule : ParsedRule) : Nat :=
  (rule.declarations.filter (·.important)).length

/-- The per-declaration accumulation of calculateLayoutRiskForDeclarations
(metrics.ts): +1 for a layout property, then +2 more when it is
position:absolute/fixed, then +1 more when it is a margin* property with a
value containing a minus sign. -/
def layoutRiskDeclStep (riskScore : ℚ) (decl : ParsedDeclaration) : ℚ :=
  if LAYOUT_PROPERTIES.contains decl.property then
    let riskScore := riskScore + 1
    let riskScore :=
      if decl.property = "position" ∧ ["absolute", "fixed"].contains decl.value then
        riskScore + 2
      else riskScore
    if decl.property.startsWith "margin" ∧ decl.value.contains '-' then
      riskScore + 1
    else riskScore
  else riskScore

/-- The risky-combination accumulation of calculateLayoutRiskForDeclarations
(metrics.ts): when every property of the combination is present, multiply
the running total by the combination multiplier and Math.round it. -/
def layoutRiskComboStep (presentProperties : List String) (riskScore : ℚ)
    (combo : RiskyCombination) : ℚ :=
  if combo.properties.all (presentProperties.contains ·) then
    (jsRound (riskScore * combo.riskMultiplier) : ℚ)
  else riskScore

/-- calculateLayoutRiskForDeclarations (metrics.ts): additive pass over the
declarations, then the risky-combination multipliers applied in definition
order, compounding sequentially. -/
def calculateLayoutRiskForDeclarations (declarations : List ParsedDeclaration) : ℚ :=
  let presentProperties := declarations.map (·.property)
  let base := declarations.foldl layoutRiskDeclStep 0
  RISKY_COMBINATIONS.foldl (layoutRiskComboStep presentProperties) base

/-- Per-file metrics (types.ts). -/
structure FileMetrics where
  file : String
  totalRules : Nat
  totalSelectors : Nat
  totalDeclarations : Nat
  maxSelectorDepth : Nat
  avgSelectorDepth : ℚ
  maxSpecificity : Specificity
  avgSpecificity : Specificity
  importantCount : Nat
  duplicateDeclarationCount : Nat
  layoutRiskScore : ℚ
deriving Repr, DecidableEq

/-- Cross-file metrics (types.ts). -/
structure GlobalMetrics where
  totalFiles : Nat
  totalRules : Nat
  totalSelectors : Nat
  totalDeclarations : Nat
  maxSelectorDepth : Nat
  avgSelectorDepth : ℚ
  maxSpecificity : Specificity
  avgSpecificity : Specificity
  totalImportantCount : Nat
  totalDuplicateDeclarations : Nat
  overallLayoutRiskScore : ℚ
deriving Repr, DecidableEq

/-- calculateFileMetrics (metrics.ts). -/
def calculateFileMetrics (parseResult : ParseResult) : FileMetrics :=
  let allSelectors := parseResult.rules.flatMap (·.selectors)
  let allDepths := allSelectors.map (·.depth)
  let allSpecificities := allSelectors.map (·.specificity)
  { file := parseResult.file
    totalRules := parseResult.rules.length
    totalSelectors := allSelectors.length
    totalDeclarations := (parseResult.rules.map (·.declarations.length)).sum
    maxSelectorDepth := allDepths.foldl max 0
    avgSelectorDepth := round2 (calculateAverage (allDepths.map (Nat.cast)))
    maxSpecificity := findMaxSpecificity allSpecificities
    avgSpecificity := calculateAverageSpecificity allSpecificities
    importantCount := (parseResult.rules.map countImportantInRule).sum
    duplicateDeclarationCount := 0
    layoutRiskScore := (parseResult.rules.map
      (fun rule => calculateLayoutRiskForDeclarations rule.declarations)).sum }

/-- calculateGlobalMetrics (metrics.ts). -/
def calculateGlobalMetrics (fileMetrics : List FileMetrics) : GlobalMetrics :=
  if fileMetrics.isEmpty then
    { totalFiles := 0, totalRules := 0, totalSelectors := 0, totalDeclarations := 0
      maxSelectorDepth := 0, avgSelectorDepth := 0
      maxSpecificity := ⟨0, 0, 0⟩, avgSpecificity := ⟨0, 0, 0⟩
      totalImportantCount := 0, totalDuplicateDeclarations := 0
      overallLayoutRiskScore := 0 }
  else
    { totalFiles := fileMetrics.length
      totalRules := (fileMetrics.map (·.totalRules)).sum
      totalSelectors := (fileMetrics.map (·.totalSelectors)).sum
      totalDeclarations := (fileMetrics.map (·.totalDeclarations)).sum
      maxSelectorDepth := (fileMetrics.map (·.maxSelectorDepth)).foldl max 0
      avgSelectorDepth := round2 (calculateAverage (fileMetrics.map (·.avgSelectorDepth)))
      maxSpecificity := findMaxSpecificity (fileMetrics.map (·.maxSpecificity))
      avgSpecificity := calculateAverageSpecificity (fileMetrics.map (·.avgSpecificity))
      totalImportantCount := (fileMetrics.map (·.importantCount)).sum
      totalDuplicateDeclarations := (fileMetrics.map (·.duplicateDeclarationCount)).sum
      overallLayoutRiskScore := (fileMetrics.map (·.layoutRiskScore)).sum }

/-- One entry of the top-selectors list (types.ts). -/
structure TopSelector where
  selector : String
  file : String
  line : Option Nat
  specificity : Specificity
  depth : Nat
  score : ℚ
deriving Repr, DecidableEq

/-- The flat list of one TopSelector entry per selector occurrence, in
source traversal order, as accumulated by extractTopSelectors (metrics.ts). -/
def topSelectorEntries (parseResults : List ParseResult) : List TopSelector :=
  parseResults.flatMap (fun result =>
    result.rules.flatMap (fun rule =>
      rule.selectors.map (fun selector =>
        { selector := selector.raw
          file := result.file
          line := rule.line
          specificity := selector.specificity
          depth := selector.depth
          score := specificityToScore selector.specificity * 2 + (selector.depth : ℚ) * 3 })))

/-- extractTopSelectors (metrics.ts): sort all entries by score descending
(stable) and keep the first `limit`. -/
def extractTopSelectors (parseResults : List ParseResult) (limit : Nat := 10) : List TopSelector :=
  ((topSelectorEntries parseResults).mergeSort
    (fun a b => decide (b.score ≤ a.score))).take limit

/-- One recorded location of a duplicated declaration (metrics.ts). -/
structure DupLocation where
  file : String
  line : Option Nat
  selector : String
deriving Repr, DecidableEq

/-- One duplicate-declaration group (metrics.ts). -/
structure DupEntry where
  count : Nat
  locations : List DupLocation
deriving Repr, DecidableEq

/-- Insertion-ordered map update used by detectDuplicateDeclarations. -/
def addDupOccurrence (m : List (String × DupEntry)) (key : String)
    (location : DupLocation) : List (String × DupEntry) :=
  if m.any (·.1 = key) then
    m.map (fun kv =>
      if kv.1 = key then
        (kv.1, { count := kv.2.count + 1, locations := kv.2.locations ++ [location] })
      else kv)
  else m ++ [(key, { count := 1, locations := [location] })]

/-- detectDuplicateDeclarations (metrics.ts): group declarations by the
normalized key property + ":" + trimmed lower-cased value, keep groups
with count at or above `minCount`, in first-insertion order. -/
def detectDuplicateDeclarations (parseResults : List ParseResult)
    (minCount : Nat := 3) : List (String × DupEntry) :=
  let declarationMap := parseResults.foldl (fun acc result =>
    result.rules.foldl (fun acc rule =>
      rule.declarations.foldl (fun acc decl =>
        let key := decl.property ++ ":" ++ decl.value.trim.toLower
        let location : DupLocation :=
          { file := result.file
            line := rule.line
            selector := ((rule.selectors.head?.map (·.raw)).getD "") }
        addDupOccurrence acc key location) acc) acc) []
  declarationMap.filter (fun kv => kv.2.count ≥ minCount)

/-- One selector record of an override-pressure group (metrics.ts). -/
structure OverrideSelectorInfo where
  selector : String
  file : String
  line : Option Nat
  specificity : Specificity
deriving Repr, DecidableEq

/-- One override-pressure group (metrics.ts). -/
structure OverrideEntry where
  property : String
  overrideCount : Nat
  selectors : List OverrideSelectorInfo
deriving Repr, DecidableEq

/-- Insertion-ordered map update used by detectOverridePressure. -/
def addOverrideOccurrence (m : List (String × OverrideEntry)) (property : String)
    (info : OverrideSelectorInfo) : List (String × OverrideEntry) :=
  if m.any (·.1 = property) then
    m.map (fun kv =>
      if kv.1 = property then
        (kv.1, { kv.2 with
                  overrideCount := kv.2.overrideCount + 1
                  selectors := kv.2.selectors ++ [info] })
      else kv)
  else m ++ [(property, { property := property, overrideCount := 1, selectors := [info] })]

/-- detectOverridePressure (metrics.ts): group declarations by property name
and keep properties defined at least `minOverrides` times. -/
def detectOverridePressure (parseResults : List ParseResult)
    (minOverrides : Nat := 5) : List (String × OverrideEntry) :=
  let propertyMap := parseResults.foldl (fun acc result =>
    result.rules.foldl (fun acc rule =>
      rule.declarations.foldl (fun acc decl =>
        let info : OverrideSelectorInfo :=
          { selector := (rule.selectors.head?.map (·.raw)).getD ""
            file := result.file
            line := rule.line
            specificity := (rule.selectors.head?.map (·.specificity)).getD ⟨0, 0, 0⟩ }
        addOverrideOccurrence acc decl.property info) acc) acc) []
  propertyMap.filter (fun kv => kv.2.overrideCount ≥ minOverrides)

/-- Issue severity (types.ts). -/
inductive Severity where
  | low
  | medium
  | high
  | critical
deriving Repr, DecidableEq

/-- Issue identifier (types.ts). -/
inductive IssueId where
  | DEEP_SELECTOR
  | HIGH_SPECIFICITY
  | IMPORTANT_ABUSE
  | DUPLICATE_DECLARATIONS
  | LAYOUT_RISK_HOTSPOT
  | OVERRIDE_PRESSURE
  | MISSING_LAYERS
deriving Repr, DecidableEq

/-- Evidence carried by an issue (types.ts). -/
structure Evidence where
  file : String
  selector : Option String := none
  property : Option String := none
  value : Option String := none
  line : Option Nat := none
  column : Option Nat := none
  specificity : Option Specificity := none
  depth : Option Nat := none
  count : Option Nat := none
deriving Repr, DecidableEq

/-- Suggestion attached to an issue (types.ts). -/
structure Suggestion where
  action : String
  description : String
deriving Repr, DecidableEq

/-- Typed issue (types.ts). -/
structure Issue where
  id : IssueId
  severity : Severity
  confidence : ℚ
  title : String
  why : String
  evidence : Evidence
  suggestions : List Suggestion
  tags : List String
deriving Repr, DecidableEq

/-- Threshold block of the user configuration (types.ts); every field
optional. -/
structure ThresholdsConfig where
  maxSelectorDepth : Option Nat := none
  maxSpecificityScore : Option ℚ := none
  maxImportantPerFile : Option ℚ := none
  maxDuplicateDeclarations : Option Nat := none
deriving Repr, DecidableEq

/-- Rule toggle block of the user configuration (types.ts); every field
optional. -/
structure RulesConfig where
  deepSelectors : Option Bool := none
  highSpecificity : Option Bool := none
  importantAbuse : Option Bool := none
  duplicateDeclarations : Option Bool := none
  layoutRiskHotspot : Option Bool := none
  overridePressure : Option Bool := none
  missingLayers : Option Bool := none
deriving Repr, DecidableEq

/-- Analyzer configuration (types.ts).  `mergeConfig` returns the same
shape with its fields populated, mirroring the TypeScript runtime value of
`Required<AnalyzerConfig>`. -/
structure AnalyzerConfig where
  «include» : Option (List String) := none
  exclude : Option (List String) := none
  thresholds : Option ThresholdsConfig := none
  ignorePatterns : Option (List String) := none
  maxScore : Option ℤ := none
  rules : Option RulesConfig := none
deriving Repr, DecidableEq

/-- getSeverityForDepth (rules.ts). -/
def getSeverityForDepth (depth maxDepth : Nat) : Severity :=
  let excess : ℤ := (depth : ℤ) - (maxDepth : ℤ)
  if excess ≥ 4 then .critical
  else if excess ≥ 2 then .high
  else .medium

/-- The DEEP_SELECTOR issue checkDeepSelectors pushes for one flagged
selector occurrence (rules.ts). -/
def deepSelectorIssue (file : String) (rule : ParsedRule)
    (selector : ParsedSelector) (maxDepth : Nat) : Issue :=
  { id := .DEEP_SELECTOR
    severity := getSeverityForDepth selector.depth maxDepth
    confidence := 9/10
    title := "Deeply nested selector (depth: " ++ toString selector.depth ++ ")"
    why := "Selectors with depth > " ++ toString maxDepth ++
      " are harder to maintain, increase specificity pressure, and create tight coupling to DOM structure. This selector has " ++
      toString selector.depth ++ " levels of nesting."
    evidence :=
      { file := file
        selector := some selector.raw
        line := rule.line
        column := rule.column
        depth := some selector.depth }
    suggestions :=
      [⟨"Flatten selector",
        "Replace with a single class that describes the component/element purpose"⟩,
       ⟨"Use BEM naming",
        "Adopt BEM (Block__Element--Modifier) naming to flatten hierarchy"⟩]
    tags := ["specificity", "maintainability"] }

/-- checkDeepSelectors (rules.ts). -/
def checkDeepSelectors (parseResults : List ParseResult)
    (config : AnalyzerConfig) : List Issue :=
  let maxDepth := ((config.thresholds.bind (·.maxSelectorDepth)).getD 4)
  parseResults.flatMap (fun result =>
    result.rules.flatMap (fun rule =>
      rule.selectors.filterMap (fun selector =>
        if selector.depth > maxDepth then
          some (deepSelectorIssue result.file rule selector maxDepth)
        else none)))

/-- getSeverityForSpecificity (rules.ts). -/
def getSeverityForSpecificity (specificity : Specificity) (maxScore : ℚ) : Severity :=
  if specificity.ids ≥ 2 then .critical
  else if specificity.ids ≥ 1 then .high
  else
    let score := specificityToScore specificity
    if score > maxScore * 2 then .high
    else if score > maxScore * (3/2) then .medium
    else .low

/-- formatSpecificity (rules.ts). -/
def formatSpecificity (specificity : Specificity) : String :=
  toString specificity.ids ++ "," ++ toString specificity.classes ++ "," ++
    toString specificity.elements

/-- checkHighSpecificity (rules.ts). -/
def checkHighSpecificity (parseResults : List ParseResult)
    (config : AnalyzerConfig) : List Issue :=
  let maxScore := (config.thresholds.bind (·.maxSpecificityScore)).getD 40
  parseResults.flatMap (fun result =>
    result.rules.flatMap (fun rule =>
      rule.selectors.filterMap (fun selector =>
        let score := specificityToScore selector.specificity
        if score > maxScore ∨ selector.hasId then
          let severity := getSeverityForSpecificity selector.specificity maxScore
          let reasons :=
            (if selector.hasId then ["uses ID selector"] else []) ++
            (if score > maxScore then
              ["specificity score (" ++ toString score ++ ") exceeds threshold (" ++
                toString maxScore ++ ")"]
             else [])
          some
            { id := .HIGH_SPECIFICITY
              severity := severity
              confidence := 95/100
              title := "High specificity selector (" ++
                formatSpecificity selector.specificity ++ ")"
              why := "High specificity selectors " ++
                String.intercalate " and " reasons ++
                ". This makes styles harder to override without resorting to !important or equally high specificity, leading to specificity wars."
              evidence :=
                { file := result.file
                  selector := some selector.raw
                  line := rule.line
                  column := rule.column
                  specificity := some selector.specificity }
              suggestions :=
                if selector.hasId then
                  [⟨"Replace ID with class",
                    "Convert #id selectors to .class selectors for lower specificity"⟩,
                   ⟨"Use data attributes",
                    "Consider [data-component=name] for JavaScript hooks instead of IDs"⟩]
                else
                  [⟨"Simplify selector",
                    "Reduce the number of classes/elements in the selector chain"⟩,
                   ⟨"Use single class",
                    "Prefer single-purpose utility classes over complex selector chains"⟩]
              tags := ["specificity", "cascade", "maintainability"] }
        else none)))

/-- getSeverityForImportantCount (rules.ts). -/
def getSeverityForImportantCount (count : Nat) (maxPerFile : ℚ) : Severity :=
  let r := (count : ℚ) / maxPerFile
  if r ≥ 4 then .critical
  else if r ≥ 5/2 then .high
  else if r ≥ 3/2 then .medium
  else .low

/-- Insertion-ordered per-file accumulator of checkImportantAbuse. -/
def addImportantCount (m : List (String × Nat × List ParsedRule)) (file : String)
    (n : Nat) (rule : ParsedRule) : List (String × Nat × List ParsedRule) :=
  if m.any (·.1 = file) then
    m.map (fun kv => if kv.1 = file then (kv.1, kv.2.1 + n, kv.2.2 ++ [rule]) else kv)
  else m ++ [(file, n, [rule])]

/-- checkImportantAbuse (rules.ts): one file-level issue per file above the
threshold, then one medium issue per individual !important declaration on a
layout-affecting property. -/
def checkImportantAbuse (parseResults : List ParseResult)
    (config : AnalyzerConfig) : List Issue :=
  let maxPerFile := (config.thresholds.bind (·.maxImportantPerFile)).getD 5
  let fileCounts := parseResults.foldl (fun acc result =>
    result.rules.foldl (fun acc rule =>
      let importantDecls := rule.declarations.filter (·.important)
      if importantDecls.length > 0 then
        addImportantCount acc result.file importantDecls.length rule
      else acc) acc) []
  let fileIssues := fileCounts.filterMap (fun (kv : String × Nat × List ParsedRule) =>
    let file := kv.1
    let count := kv.2.1
    let rules := kv.2.2
    if (count : ℚ) > maxPerFile then
      some
        { id := .IMPORTANT_ABUSE
          severity := getSeverityForImportantCount count maxPerFile
          confidence := 85/100
          title := "Excessive !important usage (" ++ toString count ++ " occurrences)"
          why := "This file contains " ++ toString count ++
            " !important declarations, exceeding the threshold of " ++
            toString maxPerFile ++
            ". Overuse of !important indicates specificity wars and makes styles unpredictable and hard to maintain."
          evidence :=
            { file := file
              selector := (rules.head?.bind (·.selectors.head?)).map (·.raw)
              line := rules.head?.bind (·.line)
              count := some count }
          suggestions :=
            [⟨"Reduce base specificity",
              "Lower the specificity of selectors so !important becomes unnecessary"⟩,
             ⟨"Use CSS layers",
              "Consider @layer to establish a predictable cascade order without !important"⟩,
             ⟨"Consolidate styles",
              "Merge competing rules into a single source of truth"⟩]
          tags := ["cascade", "override", "maintainability"] }
    else none)
  let declIssues := parseResults.flatMap (fun result =>
    result.rules.flatMap (fun rule =>
      rule.declarations.filterMap (fun decl =>
        if decl.important ∧ LAYOUT_PROPERTIES.contains decl.property then
          some
            { id := .IMPORTANT_ABUSE
              severity := .medium
              confidence := 8/10
              title := "!important on layout property: " ++ decl.property
              why := "Using !important on layout-affecting properties like " ++
                decl.property ++
                " can cause unexpected layout behavior and makes responsive adjustments difficult."
              evidence :=
                { file := result.file
                  selector := (rule.selectors.head?).map (·.raw)
                  property := some decl.property
                  value := some decl.value
                  line := rule.line }
              suggestions :=
                [⟨"Remove !important",
                  "Fix the cascade issue for " ++ decl.property ++
                    " instead of forcing with !important"⟩]
              tags := ["cascade", "layout-risk"] }
        else none)))
  fileIssues ++ declIssues

/-- getSeverityForDuplicateCount (rules.ts). -/
def getSeverityForDuplicateCount (count minCount : Nat) : Severity :=
  if count ≥ minCount * 5 then .high
  else if count ≥ minCount * 3 then .medium
  else .low

/-- checkDuplicateDeclarations (rules.ts). -/
def checkDuplicateDeclarations (parseResults : List ParseResult)
    (config : AnalyzerConfig) : List Issue :=
  let minCount := (config.thresholds.bind (·.maxDuplicateDeclarations)).getD 3
  let duplicates := detectDuplicateDeclarations parseResults minCount
  duplicates.map (fun kv =>
    let declaration := kv.1
    let count := kv.2.count
    let locations := kv.2.locations
    let parts := declaration.splitOn ":"
    let property := parts.head?.getD ""
    let value := String.intercalate ":" parts.tail
    let firstLocation := locations.head?.getD ⟨"", none, ""⟩
    { id := .DUPLICATE_DECLARATIONS
      severity := getSeverityForDuplicateCount count minCount
      confidence := 3/4
      title := "Duplicate declaration: " ++ property ++ " (" ++ toString count ++ " times)"
      why := "The declaration " ++ property ++ ": " ++ value ++ " appears " ++
        toString count ++
        " times across your CSS. This indicates potential for consolidation into a utility class or CSS custom property."
      evidence :=
        { file := firstLocation.file
          property := some property
          value := some value
          line := firstLocation.line
          selector := some firstLocation.selector
          count := some count }
      suggestions :=
        [⟨"Create utility class", "Extract to a reusable utility class"⟩,
         ⟨"Use CSS custom property",
          "Define --" ++ property ++ ": " ++ value ++
            " and reference with var(--" ++ property ++ ")"⟩]
      tags := ["duplication", "maintainability"] })

/-- getSeverityForLayoutRisk (rules.ts). -/
def getSeverityForLayoutRisk (riskScore : ℚ) : Severity :=
  if riskScore ≥ 15 then .high
  else if riskScore ≥ 10 then .medium
  else .low

/-- checkLayoutRiskHotspot (rules.ts); the risk threshold 5 is fixed. -/
def checkLayoutRiskHotspot (parseResults : List ParseResult)
    (_config : AnalyzerConfig) : List Issue :=
  let riskThreshold : ℚ := 5
  parseResults.flatMap (fun result =>
    result.rules.filterMap (fun rule =>
      let riskScore := calculateLayoutRiskForDeclarations rule.declarations
      if riskScore ≥ riskThreshold then
        let layoutProps := (rule.declarations.filter
          (fun d => LAYOUT_PROPERTIES.contains d.property)).map (·.property)
        let hasPositioning := rule.declarations.any (fun d =>
          d.property = "position" ∧ ["absolute", "fixed"].contains d.value)
        some
          { id := .LAYOUT_RISK_HOTSPOT
            severity := getSeverityForLayoutRisk riskScore
            confidence := 7/10
            title := "Layout risk hotspot (risk score: " ++ toString riskScore.num ++ ")"
            why := "This rule contains " ++ toString layoutProps.length ++
              " layout-affecting properties" ++
              (if hasPositioning then " including absolute/fixed positioning" else "") ++
              ". Complex layout rules are fragile and can cause unexpected behavior across different viewport sizes."
            evidence :=
              { file := result.file
                selector := (rule.selectors.head?).map (·.raw)
                line := rule.line
                count := some layoutProps.length }
            suggestions :=
              if hasPositioning then
                [⟨"Use relative positioning",
                  "Consider using flexbox/grid with relative positioning instead of absolute"⟩,
                 ⟨"Isolate positioning",
                  "Split positioning rules from other layout properties for better maintainability"⟩]
              else
                [⟨"Simplify layout",
                  "Consider using modern layout techniques (flexbox/grid) to reduce property count"⟩,
                 ⟨"Component isolation",
                  "Ensure layout rules are scoped to specific components"⟩]
            tags := ["layout-risk", "maintainability"] }
      else none))

/-- getSeverityForOverridePressure (rules.ts). -/
def getSeverityForOverridePressure (count : Nat) (variance : ℚ) : Severity :=
  if count ≥ 15 ∧ variance ≥ 50 then .high
  else if count ≥ 10 ∨ variance ≥ 30 then .medium
  else .low

/-- JavaScript Math.min over a spread array (0 on empty input, which the
source never hits). -/
def jsMinList : List ℚ → ℚ
  | [] => 0
  | h :: t => t.foldl min h

/-- JavaScript Math.max over a spread array (0 on empty input, which the
source never hits). -/
def jsMaxList : List ℚ → ℚ
  | [] => 0
  | h :: t => t.foldl max h

/-- checkOverridePressure (rules.ts); minOverrides is the fixed 5. -/
def checkOverridePressure (parseResults : List ParseResult)
    (_config : AnalyzerConfig) : List Issue :=
  let overridePressure := detectOverridePressure parseResults 5
  overridePressure.map (fun kv =>
    let property := kv.1
    let overrideCount := kv.2.overrideCount
    let selectors := kv.2.selectors
    let scores := selectors.map (fun s => specificityToScore s.specificity)
    let minScore := jsMinList scores
    let maxScore := jsMaxList scores
    let variance := maxScore - minScore
    let firstSelector := selectors.head?.getD ⟨"", "", none, ⟨0, 0, 0⟩⟩
    { id := .OVERRIDE_PRESSURE
      severity := getSeverityForOverridePressure overrideCount variance
      confidence := 7/10
      title := "High override pressure: " ++ property ++ " (" ++
        toString overrideCount ++ " definitions)"
      why := "The property " ++ property ++ " is defined " ++ toString overrideCount ++
        " times across different selectors with specificity ranging from " ++
        toString minScore.num ++ " to " ++ toString maxScore.num ++
        ". This suggests competing styles and potential cascade conflicts."
      evidence :=
        { file := firstSelector.file
          property := some property
          selector := some firstSelector.selector
          line := firstSelector.line
          count := some overrideCount }
      suggestions :=
        [⟨"Consolidate base styles",
          "Define " ++ property ++ " once in a base rule and use modifiers for variations"⟩,
         ⟨"Review cascade order",
          "Ensure styles follow a logical cascade from general to specific"⟩,
         ⟨"Use CSS custom properties",
          "Consider using --" ++ property ++
            " custom property that can be overridden at component level"⟩]
      tags := ["cascade", "override", "maintainability"] })

/-- getSeverityForMissingLayers (rules.ts). -/
def getSeverityForMissingLayers (totalRules totalImportant : Nat) : Severity :=
  if totalRules ≥ 200 ∨ totalImportant ≥ 20 then .medium
  else if totalRules ≥ 100 ∨ totalImportant ≥ 10 then .low
  else .low

/-- checkMissingLayers (rules.ts): at most one issue per run. -/
def checkMissingLayers (parseResults : List ParseResult)
    (_config : AnalyzerConfig) : List Issue :=
  let anyUsesLayers := parseResults.any (·.usesLayers)
  let totalRules := parseResults.foldl (fun acc r => acc + r.rules.length) 0
  let totalImportant := parseResults.foldl (fun acc r =>
    r.rules.foldl (fun acc rule =>
      acc + (rule.declarations.filter (·.important)).length) acc) 0
  let filesWithManyRules :=
    (parseResults.filter (fun r => r.rules.length ≥ 20)).length
  if ¬anyUsesLayers ∧
      (totalRules ≥ 50 ∨ totalImportant ≥ 5 ∨ filesWithManyRules ≥ 3) then
    [{ id := .MISSING_LAYERS
       severity := getSeverityForMissingLayers totalRules totalImportant
       confidence := 7/10
       title := "CSS @layer not used for cascade management"
       why := "Your CSS has " ++ toString totalRules ++ " rules" ++
         (if totalImportant > 0 then
            " and " ++ toString totalImportant ++ " !important declarations"
          else "") ++
         ", but doesn't use @layer for cascade control. CSS Cascade Layers (@layer) provide a cleaner way to manage style precedence without specificity battles or !important."
       evidence :=
         { file := (parseResults.head?.map (·.file)).getD "unknown"
           count := some totalRules }
       suggestions :=
         [⟨"Organize styles into layers",
           "Structure CSS with @layer reset, base, components, utilities for predictable cascade order"⟩,
          ⟨"Define layer order upfront",
           "Use @layer reset, base, components, utilities; at the top of your CSS to establish precedence"⟩,
          ⟨"Replace !important with layers",
           "Styles in later layers automatically override earlier layers without needing !important"⟩]
       tags := ["cascade", "layer", "maintainability"] }]
  else []

/-- Severity rank used by the final issue sort (rules.ts): critical first. -/
def severityOrder : Severity → Nat
  | .critical => 0
  | .high => 1
  | .medium => 2
  | .low => 3

/-- runAllRules (rules.ts): run every enabled detector (a toggle disables a
detector only when it is exactly false) and stable-sort all issues by
severity rank. -/
def runAllRules (parseResults : List ParseResult)
    (config : AnalyzerConfig) : List Issue :=
  let rules := config.rules.getD {}
  let issues :=
    (if rules.deepSelectors ≠ some false then
      checkDeepSelectors parseResults config else []) ++
    (if rules.highSpecificity ≠ some false then
      checkHighSpecificity parseResults config else []) ++
    (if rules.importantAbuse ≠ some false then
      checkImportantAbuse parseResults config else []) ++
    (if rules.duplicateDeclarations ≠ some false then
      checkDuplicateDeclarations parseResults config else []) ++
    (if rules.layoutRiskHotspot ≠ some false then
      checkLayoutRiskHotspot parseResults config else []) ++
    (if rules.overridePressure ≠ some false then
      checkOverridePressure parseResults config else []) ++
    (if rules.missingLayers ≠ some false then
      checkMissingLayers parseResults config else [])
  issues.mergeSort (fun a b =>
    decide (severityOrder a.severity ≤ severityOrder b.severity))

/-- Category scores (types.ts). -/
structure CategoryScores where
  specificity : ℚ
  cascade : ℚ
  duplication : ℚ
  layoutRisk : ℚ
deriving Repr, DecidableEq

/-- Letter grade (types.ts). -/
inductive Grade where
  | A
  | B
  | C
  | D
  | F
deriving Repr, DecidableEq

/-- Issue counts by severity (types.ts). -/
structure SeverityCounts where
  critical : Nat
  high : Nat
  medium : Nat
  low : Nat
deriving Repr, DecidableEq

/-- Report summary (types.ts). -/
structure Summary where
  overallScore : ℤ
  categoryScores : CategoryScores
  grade : Grade
  totalIssues : Nat
  issuesBySeverity : SeverityCounts
deriving Repr, DecidableEq

/-- calculateOverallScore (scoring.ts): weighted, clamped, rounded. -/
def calculateOverallScore (categoryScores : CategoryScores) : ℤ :=
  let weightedSum :=
    categoryScores.specificity * (3/10) +
    categoryScores.cascade * (1/4) +
    categoryScores.duplication * (1/5) +
    categoryScores.layoutRisk * (1/4)
  jsRound (min 100 (max 0 weightedSum))

/-- calculateSpecificityScore (scoring.ts). -/
def calculateSpecificityScore (metrics : GlobalMetrics) (issues : List Issue) : ℚ :=
  let avgSpecScore := specificityToScore metrics.avgSpecificity
  let score := min 30 avgSpecScore
  let maxSpecScore := specificityToScore metrics.maxSpecificity
  let score := score +
    (if maxSpecScore > 100 then 20 else if maxSpecScore > 50 then 10 else 0)
  let score := score +
    (if metrics.maxSelectorDepth > 6 then 20
     else if metrics.maxSelectorDepth > 4 then 10 else 0)
  let specificityIssues := issues.filter (fun i =>
    i.id = .HIGH_SPECIFICITY ∨ i.id = .DEEP_SELECTOR)
  let score := score + (specificityIssues.length : ℚ) * 2
  min 100 score

/-- calculateCascadeScore (scoring.ts). -/
def calculateCascadeScore (metrics : GlobalMetrics) (issues : List Issue) : ℚ :=
  let importantShare :=
    (metrics.totalImportantCount : ℚ) / (max 1 (metrics.totalDeclarations : ℚ))
  let score := min 40 (importantShare * 500)
  let cascadeIssues := issues.filter (fun i =>
    i.id = .IMPORTANT_ABUSE ∨ i.id = .OVERRIDE_PRESSURE)
  let score := cascadeIssues.foldl (fun score issue =>
    if issue.severity = .critical then score + 15
    else if issue.severity = .high then score + 10
    else if issue.severity = .medium then score + 5
    else score + 2) score
  min 100 score

/-- calculateDuplicationScore (scoring.ts). -/
def calculateDuplicationScore (metrics : GlobalMetrics) (issues : List Issue) : ℚ :=
  let duplicateShare :=
    (metrics.totalDuplicateDeclarations : ℚ) / (max 1 (metrics.totalDeclarations : ℚ))
  let score := min 40 (duplicateShare * 200)
  let duplicationIssues := issues.filter (fun i => i.id = .DUPLICATE_DECLARATIONS)
  let score := duplicationIssues.foldl (fun score issue =>
    let count := issue.evidence.count.getD 0
    score + min 10 ((count : ℚ) / 2)) score
  min 100 score

/-- calculateLayoutRiskScore (scoring.ts). -/
def calculateLayoutRiskScore (metrics : GlobalMetrics) (issues : List Issue) : ℚ :=
  let ruleCount := max 1 (metrics.totalRules : ℚ)
  let avgLayoutRisk := metrics.overallLayoutRiskScore / ruleCount
  let score := min 40 (avgLayoutRisk * 10)
  let layoutIssues := issues.filter (fun i => i.id = .LAYOUT_RISK_HOTSPOT)
  let score := layoutIssues.foldl (fun score issue =>
    if issue.severity = .high then score + 15
    else if issue.severity = .medium then score + 8
    else score + 3) score
  min 100 score

/-- calculateCategoryScores (scoring.ts). -/
def calculateCategoryScores (metrics : GlobalMetrics) (issues : List Issue) : CategoryScores :=
  { specificity := calculateSpecificityScore metrics issues
    cascade := calculateCascadeScore metrics issues
    duplication := calculateDuplicationScore metrics issues
    layoutRisk := calculateLayoutRiskScore metrics issues }

/-- scoreToGrade (scoring.ts). -/
def scoreToGrade (score : ℤ) : Grade :=
  if score ≤ 20 then .A
  else if score ≤ 40 then .B
  else if score ≤ 60 then .C
  else if score ≤ 80 then .D
  else .F

/-- countIssuesBySeverity (scoring.ts). -/
def countIssuesBySeverity (issues : List Issue) : SeverityCounts :=
  { critical := (issues.filter (·.severity = .critical)).length
    high := (issues.filter (·.severity = .high)).length
    medium := (issues.filter (·.severity = .medium)).length
    low := (issues.filter (·.severity = .low)).length }

/-- generateSummary (scoring.ts). -/
def generateSummary (metrics : GlobalMetrics) (issues : List Issue) : Summary :=
  let categoryScores := calculateCategoryScores metrics issues
  let overallScore := calculateOverallScore categoryScores
  { overallScore := overallScore
    categoryScores := categoryScores
    grade := scoreToGrade overallScore
    totalIssues := issues.length
    issuesBySeverity := countIssuesBySeverity issues }

/-- Recommendation priority (types.ts). -/
inductive Priority where
  | high
  | medium
  | low
deriving Repr, DecidableEq

/-- Recommendation (types.ts). -/
structure Recommendation where
  category : String
  title : String
  description : String
  priority : Priority
  relatedIssueIds : List IssueId
deriving Repr, DecidableEq

/-- Priority rank used by the recommendation sort (scoring.ts). -/
def priorityOrder : Priority → Nat
  | .high => 0
  | .medium => 1
  | .low => 2

/-- generateRecommendations (scoring.ts): one conditional entry per issue
group, stable-sorted by priority. -/
def generateRecommendations (issues : List Issue) : List Recommendation :=
  let highSpecificity := issues.filter (·.id = .HIGH_SPECIFICITY)
  let deepSelectors := issues.filter (·.id = .DEEP_SELECTOR)
  let importantAbuse := issues.filter (·.id = .IMPORTANT_ABUSE)
  let overridePressure := issues.filter (·.id = .OVERRIDE_PRESSURE)
  let duplicateDeclarations := issues.filter (·.id = .DUPLICATE_DECLARATIONS)
  let layoutRiskHotspot := issues.filter (·.id = .LAYOUT_RISK_HOTSPOT)
  let recommendations :=
    (if highSpecificity.length > 0 ∨ deepSelectors.length > 0 then
      [{ category := "Specificity"
         title := "Reduce selector complexity"
         description := "Your CSS has high specificity selectors or deeply nested selectors. Consider adopting a flat, single-class approach like BEM or utility-first CSS."
         priority := if highSpecificity.length > 5 then .high else .medium
         relatedIssueIds := [.HIGH_SPECIFICITY, .DEEP_SELECTOR] }]
     else []) ++
    (if importantAbuse.length > 0 then
      [{ category := "Cascade"
         title := "Reduce !important usage"
         description := "Excessive !important declarations indicate specificity wars. Establish a clear cascade hierarchy using CSS layers or lower-specificity selectors."
         priority := .high
         relatedIssueIds := [.IMPORTANT_ABUSE] }]
     else []) ++
    (if overridePressure.length > 0 then
      [{ category := "Cascade"
         title := "Consolidate override patterns"
         description := "Some properties are defined many times across different selectors. Define base styles once and use modifiers for variations."
         priority := .medium
         relatedIssueIds := [.OVERRIDE_PRESSURE] }]
     else []) ++
    (if duplicateDeclarations.length > 0 then
      [{ category := "Duplication"
         title := "Extract repeated declarations"
         description := "Multiple declarations are repeated throughout your CSS. Extract them into utility classes or CSS custom properties for better maintainability."
         priority := if duplicateDeclarations.length > 10 then .high else .medium
         relatedIssueIds := [.DUPLICATE_DECLARATIONS] }]
     else []) ++
    (if layoutRiskHotspot.length > 0 then
      [{ category := "Layout"
         title := "Simplify layout rules"
         description := "Some rules contain many layout-affecting properties. Consider using modern layout techniques (flexbox/grid) and isolating positioning from other layout concerns."
         priority := if layoutRiskHotspot.length > 5 then .high else .low
         relatedIssueIds := [.LAYOUT_RISK_HOTSPOT] }]
     else [])
  recommendations.mergeSort (fun a b =>
    decide (priorityOrder a.priority ≤ priorityOrder b.priority))

/-- The complete report (types.ts). -/
structure Report where
  version : String
  timestamp : String
  summary : Summary
  globalMetrics : GlobalMetrics
  fileMetrics : List FileMetrics
  issues : List Issue
  topSelectors : List TopSelector
  recommendations : List Recommendation
deriving Repr, DecidableEq

/-- DEFAULT_CONFIG (types.ts): the repository's declared default
configuration, with all seven rule toggles set to true. -/
def DEFAULT_CONFIG : AnalyzerConfig :=
  { «include» := some ["**/*.css"]
    exclude := some ["**/node_modules/**", "**/dist/**", "**/vendor/**"]
    thresholds := some
      { maxSelectorDepth := some 4
        maxSpecificityScore := some 40
        maxImportantPerFile := some 5
        maxDuplicateDeclarations := some 3 }
    ignorePatterns := some []
    maxScore := some 100
    rules := some
      { deepSelectors := some true
        highSpecificity := some true
        importantAbuse := some true
        duplicateDeclarations := some true
        layoutRiskHotspot := some true
        overridePressure := some true
        missingLayers := some true } }

/-- mergeConfig (analyzer.ts): merge the user configuration over the
defaults declared inline in mergeConfig.  Note that the inline default rule
set spreads only six toggles — it has no missingLayers entry, so the merged
missingLayers toggle is whatever the user supplied (none when absent). -/
def mergeConfig (userConfig : AnalyzerConfig := {}) : AnalyzerConfig :=
  let userThresholds := userConfig.thresholds.getD {}
  let userRules := userConfig.rules.getD {}
  { «include» := some (userConfig.«include».getD ["**/*.css"])
    exclude := some (userConfig.exclude.getD
      ["**/node_modules/**", "**/dist/**", "**/vendor/**"])
    thresholds := some
      { maxSelectorDepth := some (userThresholds.maxSelectorDepth.getD 4)
        maxSpecificityScore := some (userThresholds.maxSpecificityScore.getD 40)
        maxImportantPerFile := some (userThresholds.maxImportantPerFile.getD 5)
        maxDuplicateDeclarations := some (userThresholds.maxDuplicateDeclarations.getD 3) }
    ignorePatterns := some (userConfig.ignorePatterns.getD [])
    maxScore := some (userConfig.maxScore.getD 100)
    rules := some
      { deepSelectors := some (userRules.deepSelectors.getD true)
        highSpecificity := some (userRules.highSpecificity.getD true)
        importantAbuse := some (userRules.importantAbuse.getD true)
        duplicateDeclarations := some (userRules.duplicateDeclarations.getD true)
        layoutRiskHotspot := some (userRules.layoutRiskHotspot.getD true)
        overridePressure := some (userRules.overridePressure.getD true)
        missingLayers := userRules.missingLayers } }

/-- generateReport (analyzer.ts).  The source stamps the report with
`new Date().toISOString()`; that clock read is the explicit `now`
argument here, making the report an explicit function of the invocation
time and the remaining inputs. -/
def generateReport (now : String) (parseResults : List ParseResult)
    (config : AnalyzerConfig) : Report :=
  let fileMetrics := parseResults.map calculateFileMetrics
  let globalMetrics := calculateGlobalMetrics fileMetrics
  let issues := runAllRules parseResults config
  let topSelectors := extractTopSelectors parseResults 10
  let summary := generateSummary globalMetrics issues
  let recommendations := generateRecommendations issues
  { version := "0.1.0"
    timestamp := now
    summary := summary
    globalMetrics := globalMetrics
    fileMetrics := fileMetrics
    issues := issues
    topSelectors := topSelectors
    recommendations := recommendations }

/-- Result of checkThresholds (analyzer.ts). -/
structure ThresholdCheck where
  passed : Bool
  reasons : List String
deriving Repr, DecidableEq

/-- checkThresholds (analyzer.ts): one reason per violated condition;
passed exactly when no reason was pushed. -/
def checkThresholds (report : Report) (config : AnalyzerConfig) : ThresholdCheck :=
  let mergedConfig := mergeConfig config
  let maxScore := mergedConfig.maxScore.getD 100
  let reasons :=
    (if report.summary.overallScore > maxScore then
      ["Overall score (" ++ toString report.summary.overallScore ++
        ") exceeds maximum allowed (" ++ toString maxScore ++ ")"]
     else []) ++
    (if report.summary.issuesBySeverity.critical > 0 then
      ["Found " ++ toString report.summary.issuesBySeverity.critical ++
        " critical issue(s)"]
     else [])
  { passed := reasons.isEmpty, reasons := reasons }

/-- compareSpecificity of a triple with itself is zero. -/
theorem compareSpecificity_self (a : Specificity) : compareSpecificity a a = 0 := by
  simp [compareSpecificity]

/-- compareSpecificity is antisymmetric under negation. -/
theorem compareSpecificity_neg (a b : Specificity) :
    compareSpecificity a b = -compareSpecificity b a := by
  unfold compareSpecificity
  rcases eq_or_ne a.ids b.ids with h1 | h1
  · rcases eq_or_ne a.classes b.classes with h2 | h2
    · rw [if_neg (by simp [h1]), if_neg (by simp [h2]),
        if_neg (by simp [h1]), if_neg (by simp [h2])]
      ring
    · rw [if_neg (by simp [h1]), if_pos h2,
        if_neg (by simp [h1]), if_pos (Ne.symm h2)]
      ring
  · rw [if_pos h1, if_pos (Ne.symm h1)]
    ring

/-- Non-positivity of compareSpecificity is exactly the lexicographic
weak order on (ids, classes, elements). -/
theorem compareSpecificity_nonpos_iff (a b : Specificity) :
    compareSpecificity a b ≤ 0 ↔
      (a.ids < b.ids ∨ (a.ids = b.ids ∧
        (a.classes < b.classes ∨ (a.classes = b.classes ∧
          a.elements ≤ b.elements)))) := by
  rcases eq_or_ne a.ids b.ids with h1 | h1
  · rcases eq_or_ne a.classes b.classes with h2 | h2
    · rw [compareSpecificity, if_neg (by simp [h1]), if_neg (by simp [h2])]
      constructor
      · intro h
        exact Or.inr ⟨h1, Or.inr ⟨h2, sub_nonpos.mp h⟩⟩
      · rintro (h | ⟨-, h | ⟨-, h⟩⟩)
        · exact absurd h1 (ne_of_lt h)
        · exact absurd h2 (ne_of_lt h)
        · exact sub_nonpos.mpr h
    · rw [compareSpecificity, if_neg (by simp [h1]), if_pos h2]
      constructor
      · intro h
        exact Or.inr ⟨h1, Or.inl (lt_of_le_of_ne (sub_nonpos.mp h) h2)⟩
      · rintro (h | ⟨-, h | ⟨h, -⟩⟩)
        · exact absurd h1 (ne_of_lt h)
        · exact sub_nonpos.mpr h.le
        · exact absurd h h2
  · rw [compareSpecificity, if_pos h1]
    constructor
    · intro h
      exact Or.inl (lt_of_le_of_ne (sub_nonpos.mp h) h1)
    · rintro (h | ⟨h, -⟩)
      · exact sub_nonpos.mpr h.le
      · exact absurd h h1

/-- The lexicographic weak order underlying compareSpecificity is
transitive. -/
theorem compareSpecificity_nonpos_trans {a b c : Specificity}
    (hab : compareSpecificity a b ≤ 0) (hbc : compareSpecificity b c ≤ 0) :
    compareSpecificity a c ≤ 0 := by
  rw [compareSpecificity_nonpos_iff] at hab hbc ⊢
  rcases hab with h1 | ⟨h1, hab⟩
  · rcases hbc with h2 | ⟨h2, -⟩
    · exact Or.inl (h1.trans h2)
    · exact Or.inl (h2 ▸ h1)
  · rcases hbc with h2 | ⟨h2, hbc⟩
    · exact Or.inl (h1 ▸ h2)
    · refine Or.inr ⟨h1.trans h2, ?_⟩
      rcases hab with h3 | ⟨h3, hab⟩
      · rcases hbc with h4 | ⟨h4, -⟩
        · exact Or.inl (h3.trans h4)
        · exact Or.inl (h4 ▸ h3)
      · rcases hbc with h4 | ⟨h4, hbc⟩
        · exact Or.inl (h3 ▸ h4)
        · exact Or.inr ⟨h3.trans h4, hab.trans hbc⟩

/-- The fold of findMaxSpecificity returns an element of the candidate
list that every candidate (and the seed) compares at or below. -/
theorem findMaxStep_foldl_spec (t : List Specificity) (h : Specificity) :
    t.foldl findMaxStep h ∈ h :: t ∧
      compareSpecificity h (t.foldl findMaxStep h) ≤ 0 ∧
      ∀ s ∈ t, compareSpecificity s (t.foldl findMaxStep h) ≤ 0 := by
  induction t generalizing h with
  | nil =>
    refine ⟨List.mem_singleton.mpr rfl, le_of_eq (compareSpecificity_self h), ?_⟩
    intro s hs
    exact absurd hs (List.not_mem_nil s)
  | cons x t ih =>
    have hx : compareSpecificity x (findMaxStep h x) ≤ 0 := by
      unfold findMaxStep
      by_cases hc : compareSpecificity x h > 0
      · rw [if_pos hc]
        exact le_of_eq (compareSpecificity_self x)
      · rw [if_neg hc]
        exact le_of_not_lt hc
    have hh : compareSpecificity h (findMaxStep h x) ≤ 0 := by
      unfold findMaxStep
      by_cases hc : compareSpecificity x h > 0
      · rw [if_pos hc, compareSpecificity_neg]
        linarith
      · rw [if_neg hc]
        exact le_of_eq (compareSpecificity_self h)
    have hcases : findMaxStep h x = x ∨ findMaxStep h x = h := by
      unfold findMaxStep
      by_cases hc : compareSpecificity x h > 0
      · rw [if_pos hc]
        exact Or.inl rfl
      · rw [if_neg hc]
        exact Or.inr rfl
    obtain ⟨ihmem, ihseed, ihall⟩ := ih (findMaxStep h x)
    simp only [List.foldl_cons]
    refine ⟨?_, compareSpecificity_nonpos_trans hh ihseed, ?_⟩
    · rcases List.mem_cons.mp ihmem with hm | hm
      · rcases hcases with he | he
        · rw [hm, he]
          exact List.mem_cons_of_mem h (List.mem_cons_self x t)
        · rw [hm, he]
          exact List.mem_cons_self h (x :: t)
      · exact List.mem_cons_of_mem h (List.mem_cons_of_mem x hm)
    · intro s hs
      rcases List.mem_cons.mp hs with hs | hs
      · rw [hs]
        exact compareSpecificity_nonpos_trans hx ihseed
      · exact ihall s hs

/-- C2: compareSpecificity is antisymmetric (compare(a,b) = -compare(b,a))
and lexicographic — more ids wins regardless of classes and elements, and
at equal ids more classes wins regardless of elements; findMaxSpecificity
returns a member of a non-empty list that every member compares at or
below under this lexicographic order; and on a concrete pair it picks the
lexicographic maximum even though that element has the smaller scalar
score ids*100 + classes*10 + elements. -/
theorem compareSpecificity_lex_findMax :
    (∀ a b : Specificity, compareSpecificity a b = -compareSpecificity b a) ∧
    (∀ a b : Specificity, a.ids > b.ids → compareSpecificity a b > 0) ∧
    (∀ a b : Specificity, a.ids = b.ids → a.classes > b.classes →
      compareSpecificity a b > 0) ∧
    (∀ l : List Specificity, l ≠ [] →
      findMaxSpecificity l ∈ l ∧
        ∀ s ∈ l, compareSpecificity s (findMaxSpecificity l) ≤ 0) ∧
    (findMaxSpecificity [⟨1, 0, 0⟩, ⟨0, 11, 0⟩] = ⟨1, 0, 0⟩ ∧
      specificityToScore ⟨1, 0, 0⟩ < specificityToScore ⟨0, 11, 0⟩) := by
  refine ⟨compareSpecificity_neg, ?_, ?_, ?_, ?_, ?_⟩
  · intro a b h
    rw [compareSpecificity, if_pos (ne_of_gt h)]
    exact sub_pos.mpr h
  · intro a b h1 h2
    rw [compareSpecificity, if_neg (by simp [h1]), if_pos (ne_of_gt h2)]
    exact sub_pos.mpr h2
  · intro l hl
    match l, hl with
    | h :: t, _ =>
      obtain ⟨hmem, hseed, hall⟩ := findMaxStep_foldl_spec t h
      refine ⟨hmem, ?_⟩
      intro s hs
      rcases List.mem_cons.mp hs with hs | hs
      · rw [hs]
        exact hseed
      · exact hall s hs
  · show findMaxStep ⟨1, 0, 0⟩ ⟨0, 11, 0⟩ = ⟨1, 0, 0⟩
    rw [findMaxStep, if_neg]
    rw [compareSpecificity, if_pos (by norm_num)]
    norm_num
  · rw [specificityToScore, specificityToScore]
    norm_num

/-- C2 witness: the theorem applied at concrete inputs. -/
theorem compareSpecificity_lex_findMax_witness :
    compareSpecificity ⟨2, 0, 0⟩ ⟨1, 5, 5⟩ > 0 ∧
      compareSpecificity ⟨3, 1, 0⟩ ⟨3, 0, 9⟩ > 0 ∧
      findMaxSpecificity [⟨0, 1, 0⟩, ⟨0, 2, 0⟩] ∈ [⟨0, 1, 0⟩, ⟨0, 2, 0⟩] :=
  ⟨compareSpecificity_lex_findMax.2.1 ⟨2, 0, 0⟩ ⟨1, 5, 5⟩ (by norm_num),
   compareSpecificity_lex_findMax.2.2.1 ⟨3, 1, 0⟩ ⟨3, 0, 9⟩ rfl (by norm_num),
   (compareSpecificity_lex_findMax.2.2.2.1 [⟨0, 1, 0⟩, ⟨0, 2, 0⟩] (by simp)).1⟩

mutual

/-- Combinators counted from one node equal the combinator tokens in its
walk flattening. -/
theorem nodeCombinators_walk (n : SelNode) :
    nodeCombinators n = (walkNode n).countP isCombinator := by
  match n with
  | .id v => simp [nodeCombinators, walkNode, isCombinator, List.countP_cons]
  | .cls v => simp [nodeCombinators, walkNode, isCombinator, List.countP_cons]
  | .attr v => simp [nodeCombinators, walkNode, isCombinator, List.countP_cons]
  | .tag v => simp [nodeCombinators, walkNode, isCombinator, List.countP_cons]
  | .universal => simp [nodeCombinators, walkNode, isCombinator, List.countP_cons]
  | .combinator v => simp [nodeCombinators, walkNode, isCombinator, List.countP_cons]
  | .pseudo v args =>
    rw [nodeCombinators, walkNode, List.countP_cons]
    simp [isCombinator, listCombinators_walk args]

/-- Combinators counted in a node list equal the combinator tokens in its
walk flattening. -/
theorem listCombinators_walk (l : List SelNode) :
    listCombinators l = (walkList l).countP isCombinator := by
  match l with
  | [] => simp [listCombinators, walkList]
  | n :: t =>
    rw [listCombinators, walkList, List.countP_append,
      nodeCombinators_walk n, listCombinators_walk t]

end

/-- C3 counterexample: for the selector `:not(.a .b)` — one top-level
compound with a descendant combinator only inside the `:not(...)`
argument — calculateSelectorDepth returns 2, not 1 + the number of
top-level combinator tokens (which is 0): the walk also counts
combinators nested inside functional pseudo-class arguments. -/
theorem calculateSelectorDepth_counts_nested_combinators :
    calculateSelectorDepth
        [SelNode.pseudo ":not" [.cls "a", .combinator " ", .cls "b"]] ≠
      1 + topLevelCombinators
        [SelNode.pseudo ":not" [.cls "a", .combinator " ", .cls "b"]] ∧
    calculateSelectorDepth
        [SelNode.pseudo ":not" [.cls "a", .combinator " ", .cls "b"]] = 2 ∧
    topLevelCombinators
        [SelNode.pseudo ":not" [.cls "a", .combinator " ", .cls "b"]] = 0 := by
  refine ⟨?_, by decide, by decide⟩
  decide

/-- C3 (amended): calculateSelectorDepth returns 1 plus the number of
combinator tokens occurring anywhere in the selector, including inside
functional pseudo-class arguments such as `:not(...)`, since the
structural walk descends into them. -/
theorem calculateSelectorDepth_eq_one_add_walk_combinators
    (selector : List SelNode) :
    calculateSelectorDepth selector =
      1 + (walkList selector).countP isCombinator := by
  rw [calculateSelectorDepth, listCombinators_walk]

/-- The additive contribution of one declaration as the specification
words it: +1 per declaration whose property is in LAYOUT_PROPERTIES, +2
extra when that property is position with value absolute or fixed, +1
extra when that (counted) property starts with margin and its value
contains a minus sign. -/
def declarationRiskContribution (d : ParsedDeclaration) : ℚ :=
  if LAYOUT_PROPERTIES.contains d.property then
    1 + (if d.property = "position" ∧ ["absolute", "fixed"].contains d.value then 2 else 0)
      + (if d.property.startsWith "margin" ∧ d.value.contains '-' then 1 else 0)
  else 0

/-- The layout-risk score as the specification words it: the sum of the
per-declaration contributions, then each risky combination whose
properties are all present applied in definition order, multiplying the
running total and rounding to the nearest integer. -/
def layoutRiskFromSpec (declarations : List ParsedDeclaration) : ℚ :=
  RISKY_COMBINATIONS.foldl
    (layoutRiskComboStep (declarations.map (·.property)))
    ((declarations.map declarationRiskContribution).sum)

/-- One step of the source accumulation adds exactly the specification's
per-declaration contribution. -/
theorem layoutRiskDeclStep_eq (acc : ℚ) (d : ParsedDeclaration) :
    layoutRiskDeclStep acc d = acc + declarationRiskContribution d := by
  simp only [layoutRiskDeclStep, declarationRiskContribution]
  by_cases h1 : LAYOUT_PROPERTIES.contains d.property
  · rw [if_pos h1, if_pos h1]
    by_cases h2 : d.property = "position" ∧ ["absolute", "fixed"].contains d.value
    · rw [if_pos h2, if_pos h2]
      by_cases h3 : d.property.startsWith "margin" ∧ d.value.contains '-'
      · rw [if_pos h3, if_pos h3]
        ring
      · rw [if_neg h3, if_neg h3]
        ring
    · rw [if_neg h2, if_neg h2]
      by_cases h3 : d.property.startsWith "margin" ∧ d.value.contains '-'
      · rw [if_pos h3, if_pos h3]
        ring
      · rw [if_neg h3, if_neg h3]
        ring
  · rw [if_neg h1, if_neg h1]
    ring

/-- The source additive fold equals the sum of the specification's
per-declaration contributions. -/
theorem foldl_layoutRiskDeclStep (ds : List ParsedDeclaration) (acc : ℚ) :
    ds.foldl layoutRiskDeclStep acc =
      acc + (ds.map declarationRiskContribution).sum := by
  induction ds generalizing acc with
  | nil => simp
  | cons d t ih =>
    rw [List.foldl_cons, layoutRiskDeclStep_eq, ih, List.map_cons, List.sum_cons]
    ring

/-- C4: for every declaration list, calculateLayoutRiskForDeclarations
equals the specification's computation — the additive pass (+1 per
layout property, +2 extra for position:absolute/fixed, +1 extra for a
margin* property with a negative value) followed by the risky-combination
multipliers applied in definition order, each multiplying the running
total and rounding to the nearest integer, compounding sequentially. -/
theorem calculateLayoutRisk_eq_spec (declarations : List ParsedDeclaration) :
    calculateLayoutRiskForDeclarations declarations =
      layoutRiskFromSpec declarations := by
  rw [calculateLayoutRiskForDeclarations, layoutRiskFromSpec,
    foldl_layoutRiskDeclStep, zero_add]

/-- filterMap with an if-some-else-none body is filter followed by map. -/
theorem filterMap_ite_eq_filter_map {α β : Type} (p : α → Prop) [DecidablePred p]
    (g : α → β) (l : List α) :
    l.filterMap (fun a => if p a then some (g a) else none) =
      (l.filter (fun a => decide (p a))).map g := by
  induction l with
  | nil => rfl
  | cons a t ih =>
    by_cases h : p a
    · simp [List.filterMap_cons, List.filter_cons, h, ih]
    · simp [List.filterMap_cons, List.filter_cons, h, ih]

/-- Depth-5 selector used by the concrete part of C5. -/
def depth5Selector : ParsedSelector :=
  { raw := ".a .b .c .d .e", depth := 5, specificity := ⟨0, 5, 0⟩
    hasId := false, hasPseudoClass := false
    hasPseudoElement := false, hasAttribute := false }

/-- Depth-8 selector used by the concrete part of C5. -/
def depth8Selector : ParsedSelector :=
  { raw := ".a .b .c .d .e .f .g .h", depth := 8, specificity := ⟨0, 8, 0⟩
    hasId := false, hasPseudoClass := false
    hasPseudoElement := false, hasAttribute := false }

/-- One-rule parse result holding a single given selector. -/
def singleSelectorResult (sel : ParsedSelector) : ParseResult :=
  { file := "styles.css"
    rules := [{ selectors := [sel], declarations := [⟨"color", "red", false⟩]
                file := "styles.css", line := some 1, column := some 1 }] }

/-- C5: checkDeepSelectors emits one DEEP_SELECTOR issue per selector
occurrence whose depth exceeds the configured maxSelectorDepth (default 4)
and none otherwise; the severity of an emitted issue is critical when
excess = depth - threshold is at least 4, high when at least 2 and medium
otherwise; a single depth-5 selector under the default merged config
yields exactly one medium DEEP_SELECTOR issue, and a depth-8 selector
yields critical severity. -/
theorem checkDeepSelectors_flags_excess_depth :
    (∀ (results : List ParseResult) (cfg : AnalyzerConfig),
      checkDeepSelectors results cfg =
        results.flatMap (fun result =>
          result.rules.flatMap (fun rule =>
            (rule.selectors.filter (fun s =>
                decide (s.depth > (cfg.thresholds.bind (fun t => t.maxSelectorDepth)).getD 4))).map
              (fun s => deepSelectorIssue result.file rule s
                ((cfg.thresholds.bind (fun t => t.maxSelectorDepth)).getD 4))))) ∧
    (∀ (file : String) (rule : ParsedRule) (sel : ParsedSelector) (maxDepth : Nat),
      (deepSelectorIssue file rule sel maxDepth).id = .DEEP_SELECTOR ∧
      (deepSelectorIssue file rule sel maxDepth).evidence.depth = some sel.depth ∧
      (deepSelectorIssue file rule sel maxDepth).severity =
        (if (sel.depth : ℤ) - (maxDepth : ℤ) ≥ 4 then .critical
         else if (sel.depth : ℤ) - (maxDepth : ℤ) ≥ 2 then .high
         else .medium)) ∧
    ((checkDeepSelectors [singleSelectorResult depth5Selector]
        (mergeConfig {})).map (fun i => (i.id, i.severity)) =
      [(.DEEP_SELECTOR, .medium)]) ∧
    ((checkDeepSelectors [singleSelectorResult depth8Selector]
        (mergeConfig {})).map (fun i => (i.id, i.severity)) =
      [(.DEEP_SELECTOR, .critical)]) := by
  refine ⟨?_, ?_, by decide, by decide⟩
  · intro results cfg
    simp only [checkDeepSelectors]
    simp only [filterMap_ite_eq_filter_map]
  · intro file rule sel maxDepth
    exact ⟨rfl, rfl, by simp [deepSelectorIssue, getSeverityForDepth]⟩

/-- A left fold accumulating a sum equals the seed plus the mapped sum. -/
theorem foldl_add_eq_sum {α : Type} (f : α → Nat) (l : List α) (acc : Nat) :
    l.foldl (fun acc a => acc + f a) acc = acc + (l.map f).sum := by
  induction l generalizing acc with
  | nil => simp
  | cons a t ih =>
    rw [List.foldl_cons, ih, List.map_cons, List.sum_cons]
    omega

/-- C6: checkMissingLayers emits at most one issue per run; it emits one
exactly when no parse result uses layers and the totals qualify (total
rules at least 50, or total !important declarations at least 5, or at
least 3 files with at least 20 rules); every emitted issue is a
MISSING_LAYERS issue whose severity is medium when total rules reach 200
or total !important reaches 20 and low otherwise; and when some file uses
layers nothing is emitted. -/
theorem checkMissingLayers_at_most_once (results : List ParseResult)
    (cfg : AnalyzerConfig) :
    (checkMissingLayers results cfg).length ≤ 1 ∧
    (checkMissingLayers results cfg ≠ [] ↔
      ((∀ r ∈ results, r.usesLayers = false) ∧
        ((results.map (·.rules.length)).sum ≥ 50 ∨
         (results.map (fun r => (r.rules.map (fun rule =>
            (rule.declarations.filter (·.important)).length)).sum)).sum ≥ 5 ∨
         (results.filter (fun r => r.rules.length ≥ 20)).length ≥ 3))) ∧
    (∀ i ∈ checkMissingLayers results cfg,
      i.id = .MISSING_LAYERS ∧
      i.severity =
        (if (results.map (·.rules.length)).sum ≥ 200 ∨
            (results.map (fun r => (r.rules.map (fun rule =>
              (rule.declarations.filter (·.important)).length)).sum)).sum ≥ 20
         then .medium else .low)) ∧
    ((∃ r ∈ results, r.usesLayers = true) → checkMissingLayers results cfg = []) := by
  have e1 : results.foldl (fun acc r => acc + r.rules.length) 0 =
      (results.map (·.rules.length)).sum := by
    simpa using foldl_add_eq_sum (fun r : ParseResult => r.rules.length) results 0
  have hfun : (fun (acc : ℕ) (r : ParseResult) =>
      r.rules.foldl (fun acc rule =>
        acc + (rule.declarations.filter (·.important)).length) acc) =
      fun (acc : ℕ) (r : ParseResult) =>
        acc + (r.rules.map (fun rule =>
          (rule.declarations.filter (·.important)).length)).sum := by
    funext acc r
    exact foldl_add_eq_sum _ _ _
  have e2 : results.foldl (fun acc r =>
      r.rules.foldl (fun acc rule =>
        acc + (rule.declarations.filter (·.important)).length) acc) 0 =
      (results.map (fun r => (r.rules.map (fun rule =>
        (rule.declarations.filter (·.important)).length)).sum)).sum := by
    rw [hfun]
    simpa using foldl_add_eq_sum
      (fun r : ParseResult => (r.rules.map (fun rule =>
        (rule.declarations.filter (·.important)).length)).sum) results 0
  have hall : (¬ (results.any (·.usesLayers) = true)) ↔
      ∀ r ∈ results, r.usesLayers = false := by
    simp [List.any_eq_true]
  simp only [checkMissingLayers, e1, e2, hall]
  by_cases hC : (∀ r ∈ results, r.usesLayers = false) ∧
      ((results.map (·.rules.length)).sum ≥ 50 ∨
       (results.map (fun r => (r.rules.map (fun rule =>
          (rule.declarations.filter (·.important)).length)).sum)).sum ≥ 5 ∨
       (results.filter (fun r => r.rules.length ≥ 20)).length ≥ 3)
  case pos =>
    rw [if_pos hC]
    refine ⟨by simp, iff_of_true (by simp) hC, ?_, ?_⟩
    · intro i hi
      rw [List.mem_singleton] at hi
      subst hi
      refine ⟨rfl, ?_⟩
      show getSeverityForMissingLayers _ _ = _
      by_cases h : (results.map (·.rules.length)).sum ≥ 200 ∨
          (results.map (fun r => (r.rules.map (fun rule =>
            (rule.declarations.filter (·.important)).length)).sum)).sum ≥ 20
      · simp [getSeverityForMissingLayers, h]
      · simp [getSeverityForMissingLayers, h, ite_self]
    · rintro ⟨r, hr, hu⟩
      simp [hC.1 r hr] at hu
  case neg =>
    rw [if_neg hC]
    refine ⟨by simp, iff_of_false (by simp) hC, by simp, fun _ => rfl⟩

/-- C6 witness: a file that declares a layer suppresses the issue, by the
theorem applied at a concrete input. -/
theorem checkMissingLayers_at_most_once_witness :
    checkMissingLayers
      [{ file := "a.css", rules := [], layers := ["base"], usesLayers := true }]
      {} = [] :=
  (checkMissingLayers_at_most_once
    [{ file := "a.css", rules := [], layers := ["base"], usesLayers := true }]
    {}).2.2.2 ⟨_, List.mem_singleton.mpr rfl, rfl⟩

/-- A concrete all-clear report used by the C8 witness. -/
def cleanReport : Report :=
  { version := "0.1.0"
    timestamp := "2024-01-01T00:00:00.000Z"
    summary :=
      { overallScore := 0
        categoryScores := ⟨0, 0, 0, 0⟩
        grade := .A
        totalIssues := 0
        issuesBySeverity := ⟨0, 0, 0, 0⟩ }
    globalMetrics :=
      { totalFiles := 0, totalRules := 0, totalSelectors := 0
        totalDeclarations := 0, maxSelectorDepth := 0, avgSelectorDepth := 0
        maxSpecificity := ⟨0, 0, 0⟩, avgSpecificity := ⟨0, 0, 0⟩
        totalImportantCount := 0, totalDuplicateDeclarations := 0
        overallLayoutRiskScore := 0 }
    fileMetrics := []
    issues := []
    topSelectors := []
    recommendations := [] }

/-- C8: checkThresholds passes exactly when the overall score is at most
the merged maxScore and there are no critical issues; the reasons list is
the concatenation of one entry per violated condition; and a passing
check carries an empty reasons list. -/
theorem checkThresholds_passed_iff (report : Report) (cfg : AnalyzerConfig) :
    ((checkThresholds report cfg).passed = true ↔
      (report.summary.overallScore ≤ cfg.maxScore.getD 100 ∧
        report.summary.issuesBySeverity.critical = 0)) ∧
    ((checkThresholds report cfg).reasons =
      (if report.summary.overallScore > cfg.maxScore.getD 100 then
        ["Overall score (" ++ toString report.summary.overallScore ++
          ") exceeds maximum allowed (" ++ toString (cfg.maxScore.getD 100) ++ ")"]
       else []) ++
      (if report.summary.issuesBySeverity.critical > 0 then
        ["Found " ++ toString report.summary.issuesBySeverity.critical ++
          " critical issue(s)"]
       else [])) ∧
    ((checkThresholds report cfg).passed = true →
      (checkThresholds report cfg).reasons = []) := by
  have hmax : (mergeConfig cfg).maxScore = some (cfg.maxScore.getD 100) := rfl
  simp only [checkThresholds, hmax, Option.getD_some]
  refine ⟨?_, trivial, ?_⟩
  · by_cases h1 : report.summary.overallScore > cfg.maxScore.getD 100 <;>
      by_cases h2 : report.summary.issuesBySeverity.critical > 0 <;>
        simp [h1, h2] <;> omega
  · intro h
    simpa using h

/-- C8 witness: the theorem applied to a concrete passing report. -/
theorem checkThresholds_passed_iff_witness :
    (checkThresholds cleanReport {}).reasons = [] :=
  (checkThresholds_passed_iff cleanReport {}).2.2 (by decide)

/-- C9: mergeConfig on the empty user configuration fills every threshold
and six of the rule toggles with their defaults, but leaves the
missingLayers toggle undefined (none), although the repository's own
DEFAULT_CONFIG declares all seven toggles true — the inline default rule
set inside mergeConfig omits missingLayers, so the spread never defines
it. -/
theorem mergeConfig_leaves_missingLayers_undefined :
    ((mergeConfig {}).thresholds.getD {}).maxSelectorDepth = some 4 ∧
    ((mergeConfig {}).thresholds.getD {}).maxSpecificityScore = some 40 ∧
    ((mergeConfig {}).thresholds.getD {}).maxImportantPerFile = some 5 ∧
    ((mergeConfig {}).thresholds.getD {}).maxDuplicateDeclarations = some 3 ∧
    (mergeConfig {}).maxScore = some 100 ∧
    ((mergeConfig {}).rules.getD {}).deepSelectors = some true ∧
    ((mergeConfig {}).rules.getD {}).highSpecificity = some true ∧
    ((mergeConfig {}).rules.getD {}).importantAbuse = some true ∧
    ((mergeConfig {}).rules.getD {}).duplicateDeclarations = some true ∧
    ((mergeConfig {}).rules.getD {}).layoutRiskHotspot = some true ∧
    ((mergeConfig {}).rules.getD {}).overridePressure = some true ∧
    ((mergeConfig {}).rules.getD {}).missingLayers = none ∧
    (DEFAULT_CONFIG.rules.getD {}).missingLayers = some true :=
  ⟨rfl, rfl, rfl, rfl, rfl, rfl, rfl, rfl, rfl, rfl, rfl, rfl, rfl⟩

/-- Every accumulated top-selector entry carries the score computed from
its own recorded specificity and depth. -/
theorem topSelectorEntries_score (results : List ParseResult) :
    ∀ e ∈ topSelectorEntries results,
      e.score = specificityToScore e.specificity * 2 + (e.depth : ℚ) * 3 := by
  intro e he
  simp only [topSelectorEntries, List.mem_flatMap, List.mem_map] at he
  obtain ⟨res, -, rule, -, sel, -, rfl⟩ := he
  rfl

/-- C10: extractTopSelectors returns at most `limit` entries, each of which
is one of the accumulated selector occurrences, each carrying score
2*(100*ids + 10*classes + elements) + 3*depth, and the returned list is in
non-increasing score order. -/
theorem extractTopSelectors_sorted_topN (results : List ParseResult)
    (limit : Nat) :
    (extractTopSelectors results limit).length ≤ limit ∧
    (∀ e ∈ extractTopSelectors results limit, e ∈ topSelectorEntries results) ∧
    (∀ e ∈ extractTopSelectors results limit,
      e.score = 2 * (100 * e.specificity.ids + 10 * e.specificity.classes +
        e.specificity.elements) + 3 * (e.depth : ℚ)) ∧
    (extractTopSelectors results limit).Pairwise (fun a b => b.score ≤ a.score) := by
  have hmem : ∀ e ∈ extractTopSelectors results limit,
      e ∈ topSelectorEntries results := by
    intro e he
    have h1 : e ∈ (topSelectorEntries results).mergeSort
        (fun a b => decide (b.score ≤ a.score)) :=
      (List.take_sublist _ _).subset he
    exact List.mem_mergeSort.mp h1
  refine ⟨?_, hmem, ?_, ?_⟩
  · rw [extractTopSelectors, List.length_take]
    exact min_le_left _ _
  · intro e he
    have h := topSelectorEntries_score results e (hmem e he)
    rw [h, specificityToScore]
    ring
  · have hsorted : ((topSelectorEntries results).mergeSort
        (fun a b => decide (b.score ≤ a.score))).Pairwise
          (fun a b => (decide (b.score ≤ a.score)) = true) := by
      refine List.sorted_mergeSort ?_ ?_ (topSelectorEntries results)
      · intro a b c hab hbc
        rw [decide_eq_true_eq] at hab hbc ⊢
        exact le_trans hbc hab
      · intro a b
        rcases le_total b.score a.score with h | h
        · simp [h]
        · simp [h]
    have htake := hsorted.sublist (List.take_sublist limit _)
    exact htake.imp (fun h => of_decide_eq_true h)

/-- Running the rule engine on zero parse results yields zero issues,
whatever the configuration. -/
theorem runAllRules_nil (cfg : AnalyzerConfig) : runAllRules [] cfg = [] := by
  have h1 : checkDeepSelectors [] cfg = [] := rfl
  have h2 : checkHighSpecificity [] cfg = [] := rfl
  have h3 : checkImportantAbuse [] cfg = [] := rfl
  have h4 : checkDuplicateDeclarations [] cfg = [] := rfl
  have h5 : checkLayoutRiskHotspot [] cfg = [] := rfl
  have h6 : checkOverridePressure [] cfg = [] := rfl
  have h7 : checkMissingLayers [] cfg = [] := by
    simp [checkMissingLayers]
  simp only [runAllRules, h1, h2, h3, h4, h5, h6, h7, ite_self,
    List.append_nil, List.mergeSort_nil]

/-- The summary of an empty analysis: score zero, grade A, no issues. -/
theorem generateSummary_empty :
    generateSummary ⟨0, 0, 0, 0, 0, 0, ⟨0, 0, 0⟩, ⟨0, 0, 0⟩, 0, 0, 0⟩ [] =
      ⟨0, ⟨0, 0, 0, 0⟩, .A, 0, ⟨0, 0, 0, 0⟩⟩ := by
  simp only [generateSummary, calculateCategoryScores, calculateSpecificityScore,
    calculateCascadeScore, calculateDuplicationScore, calculateLayoutRiskScore,
    calculateOverallScore, countIssuesBySeverity, scoreToGrade,
    specificityToScore, List.filter_nil, List.foldl_nil, List.length_nil]
  norm_num [jsRound, min_def, max_def]

/-- C7: analyzing an empty input list with any configuration produces a
complete report whose global metrics are all zero, whose file metrics,
issue and top-selector lists are empty, whose overall score is 0, and
whose grade is A. -/
theorem generateReport_empty_input (now : String) (cfg : AnalyzerConfig) :
    (generateReport now [] cfg).globalMetrics =
      ⟨0, 0, 0, 0, 0, 0, ⟨0, 0, 0⟩, ⟨0, 0, 0⟩, 0, 0, 0⟩ ∧
    (generateReport now [] cfg).fileMetrics = [] ∧
    (generateReport now [] cfg).issues = [] ∧
    (generateReport now [] cfg).topSelectors = [] ∧
    (generateReport now [] cfg).summary.overallScore = 0 ∧
    (generateReport now [] cfg).summary.grade = .A ∧
    (generateReport now [] cfg).summary.totalIssues = 0 ∧
    (generateReport now [] cfg).summary.issuesBySeverity = ⟨0, 0, 0, 0⟩ := by
  have htop : extractTopSelectors [] 10 = [] := by
    simp [extractTopSelectors, topSelectorEntries, List.mergeSort_nil]
  have hgm : calculateGlobalMetrics ([] : List FileMetrics) =
      ⟨0, 0, 0, 0, 0, 0, ⟨0, 0, 0⟩, ⟨0, 0, 0⟩, 0, 0, 0⟩ := rfl
  simp only [generateReport, List.map_nil, runAllRules_nil, hgm, htop,
    generateSummary_empty]
  simp

/-- C1 counterexample: two invocations of the core analysis on identical
inputs do not produce equal Reports, because generateReport stamps the
report with the invocation-time clock read — here two runs one
millisecond apart on the same empty input and default merged config. -/
theorem generateReport_differs_across_runs :
    generateReport "2024-01-01T00:00:00.000Z" [] (mergeConfig {}) ≠
      generateReport "2024-01-01T00:00:00.001Z" [] (mergeConfig {}) := by
  intro h
  have h2 := congrArg Report.timestamp h
  simp only [generateReport] at h2
  exact absurd h2 (by decide)

/-- C1 (amended): two invocations of generateReport on the same parse
results and configuration agree on every Report field except timestamp,
which records the invocation time; every other field is a pure, total
function of the inputs. -/
theorem generateReport_pure_except_timestamp (t₁ t₂ : String)
    (results : List ParseResult) (cfg : AnalyzerConfig) :
    (generateReport t₁ results cfg).version =
      (generateReport t₂ results cfg).version ∧
    (generateReport t₁ results cfg).summary =
      (generateReport t₂ results cfg).summary ∧
    (generateReport t₁ results cfg).globalMetrics =
      (generateReport t₂ results cfg).globalMetrics ∧
    (generateReport t₁ results cfg).fileMetrics =
      (generateReport t₂ results cfg).fileMetrics ∧
    (generateReport t₁ results cfg).issues =
      (generateReport t₂ results cfg).issues ∧
    (generateReport t₁ results cfg).topSelectors =
      (generateReport t₂ results cfg).topSelectors ∧
    (generateReport t₁ results cfg).recommendations =
      (generateReport t₂ results cfg).recommendations ∧
    (generateReport t₁ results cfg).timestamp = t₁ :=
  ⟨rfl, rfl, rfl, rfl, rfl, rfl, rfl, rfl⟩

/-- C3 witness: the amended depth equation applied at the selector
`.a .b` (one top-level descendant combinator). -/
theorem calculateSelectorDepth_eq_one_add_walk_combinators_witness :
    calculateSelectorDepth [SelNode.cls "a", .combinator " ", .cls "b"] =
      1 + (walkList [SelNode.cls "a", .combinator " ", .cls "b"]).countP isCombinator :=
  calculateSelectorDepth_eq_one_add_walk_combinators
    [SelNode.cls "a", .combinator " ", .cls "b"]

/-- C4 witness: the layout-risk equation applied at a concrete
position:absolute / top / left declaration block. -/
theorem calculateLayoutRisk_eq_spec_witness :
    calculateLayoutRiskForDeclarations
        [⟨"position", "absolute", false⟩, ⟨"top", "0px", false⟩,
         ⟨"left", "0px", false⟩] =
      layoutRiskFromSpec
        [⟨"position", "absolute", false⟩, ⟨"top", "0px", false⟩,
         ⟨"left", "0px", false⟩] :=
  calculateLayoutRisk_eq_spec
    [⟨"position", "absolute", false⟩, ⟨"top", "0px", false⟩, ⟨"left", "0px", false⟩]

/-- C5 witness: the characterization applied at the depth-5 input and the
empty configuration. -/
theorem checkDeepSelectors_flags_excess_depth_witness :
    checkDeepSelectors [singleSelectorResult depth5Selector] {} =
      [singleSelectorResult depth5Selector].flatMap (fun result =>
        result.rules.flatMap (fun rule =>
          (rule.selectors.filter (fun s =>
              decide (s.depth > (({} : AnalyzerConfig).thresholds.bind
                (fun t => t.maxSelectorDepth)).getD 4))).map
            (fun s => deepSelectorIssue result.file rule s
              ((({} : AnalyzerConfig).thresholds.bind
                (fun t => t.maxSelectorDepth)).getD 4)))) :=
  checkDeepSelectors_flags_excess_depth.1 [singleSelectorResult depth5Selector] {}

/-- C7 witness: the empty-input theorem applied at a concrete timestamp
and the empty configuration. -/
theorem generateReport_empty_input_witness :
    (generateReport "2024-01-01T00:00:00.000Z" [] {}).issues = [] :=
  (generateReport_empty_input "2024-01-01T00:00:00.000Z" {}).2.2.1

/-- C10 witness: the top-selectors theorem applied at the empty input and
limit 5. -/
theorem extractTopSelectors_sorted_topN_witness :
    (extractTopSelectors [] 5).length ≤ 5 :=
  (extractTopSelectors_sorted_topN [] 5).1

/-- C1 witness: the amended purity theorem applied at two concrete
timestamps and the empty input. -/
theorem generateReport_pure_except_timestamp_witness :
    (generateReport "a" [] {}).summary = (generateReport "b" [] {}).summary :=
  (generateReport_pure_except_timestamp "a" "b" [] {}).2.1
